import Mathlib

/-!
Shallow embedding of the Salford reel generator
(`reel_video_generator.py` and `daily_reel_automation.py`).

Durations and sizes are rationals (`ℚ`); Python floats are modelled
exactly.  External calls (TTS, Pexels search, download, rendering) are
modelled by outcome parameters in a `RunEnv` record; exceptions raised
by those calls are modelled with an `HttpOutcome`/`Except` discipline
mirroring the `try`/`except` structure of the source.
-/

namespace ReelGen

/-- Outcome of an external call: a parsed value, or a raised exception
(non-2xx `raise_for_status`, transport failure, library error). -/
inductive HttpOutcome (α : Type) where
  | ok (val : α)
  | error
deriving DecidableEq

/-- One entry of a Pexels `video_files` list (fields used by the source). -/
structure VideoFile where
  quality : String
  width : ℕ
  link : String
deriving DecidableEq

/-- One entry of a Pexels `videos` response list. -/
structure PexelsVideo where
  video_files : List VideoFile
  duration : ℚ
deriving DecidableEq

/-- The dictionary appended per video by `search_pexels_videos`. -/
structure VideoChoice where
  url : String
  width : ℕ
  duration : ℚ
deriving DecidableEq

/-- `next((f for f in video_files if f.get('quality') == 'hd' and
f.get('width', 0) <= 1080), video_files[0] if video_files else None)`
from `search_pexels_videos` (reel_video_generator.py lines 94-98). -/
def selectFile (video_files : List VideoFile) : Option VideoFile :=
  match video_files.find? (fun f => f.quality == "hd" && decide (f.width ≤ 1080)) with
  | some f => some f
  | none => video_files.head?

/-- `search_pexels_videos` (reel_video_generator.py lines 72-113): empty
key returns `[]`; on a raised exception the `except` branch prints a
warning and returns `[]`; otherwise each video contributes its selected
file, skipped when `hd_file` is `None`. -/
def search_pexels_videos (key : String) (response : HttpOutcome (List PexelsVideo)) :
    List VideoChoice :=
  if key = "" then []
  else
    match response with
    | HttpOutcome.ok vids =>
        vids.filterMap (fun v =>
          (selectFile v.video_files).map (fun f => ⟨f.link, f.width, v.duration⟩))
    | HttpOutcome.error => []

/-- `download_video` (reel_video_generator.py lines 115-130): returns the
output path on success; the `except` branch prints an error and returns
`None`. -/
def download_video (outcome : HttpOutcome Unit) (output_path : String) : Option String :=
  match outcome with
  | HttpOutcome.ok _ => some output_path
  | HttpOutcome.error => none

/-- The hard-coded fallback key from `ReelVideoGenerator.__init__`
(reel_video_generator.py line 53). -/
def defaultPexelsKey : String := "jGfFPRv1pDf617NAP4UIhITmFVX987cCP2rCssvkSGwEuL9mMcp7I5Hx"

/-- `self.pexels_api_key = pexels_api_key or "jGfF..."` — Python `or`
takes the default when the argument is `None` or the empty string. -/
def initPexelsKey (pexels_api_key : Option String) : String :=
  match pexels_api_key with
  | some k => if k = "" then defaultPexelsKey else k
  | none => defaultPexelsKey

/-- The `story_data` dictionary: keys accessed by the source. -/
structure StoryData where
  title : Option String
  story : Option String
  content : Option String
  hashtags : Option (List String)
deriving DecidableEq

/-- `story_data.get('story', story_data.get('content', ''))`
(reel_video_generator.py line 173). -/
def storyTextOf (sd : StoryData) : String :=
  sd.story.getD (sd.content.getD "")

/-- Python truthiness of an optional string: `None` and `""` are falsy. -/
def truthyStr : Option String → Bool
  | none => false
  | some s => !(s == "")

/-- Python `int()` truncation toward zero on a rational. -/
def int_trunc (q : ℚ) : ℤ :=
  if 0 ≤ q then ⌊q⌋ else ⌈q⌉

/-- `loops = int(actual_duration / bg_video.duration) + 1`
(reel_video_generator.py line 205). -/
def loops (nativeDur T : ℚ) : ℤ :=
  int_trunc (T / nativeDur) + 1

/-- Duration after the conditional looping step
(reel_video_generator.py lines 204-206): repeated whole-clip
concatenation when the native duration falls short of the target. -/
def loopedDuration (nativeDur T : ℚ) : ℚ :=
  if nativeDur < T then (loops nativeDur T : ℚ) * nativeDur else nativeDur

/-- The background track of the composition. -/
structure Background where
  duration : ℚ
  width : ℚ
  height : ℚ
  isSolid : Bool
deriving DecidableEq

/-- `create_solid_background` (reel_video_generator.py lines 152-155):
a solid-colour `ImageClip` of the default size `(1080, 1920)` held for
the given duration. -/
def create_solid_background (duration : ℚ) : Background :=
  { duration := duration, width := 1080, height := 1920, isSolid := true }

/-- The geometric and temporal transform applied to a downloaded clip
(reel_video_generator.py lines 192-208): `resize(height=1920)`, centre
crop to width 1080 when wider, conditional looping, then
`subclip(0, actual_duration)` which yields duration exactly `T`. -/
def transformBackground (nativeW nativeH nativeDur T : ℚ) : Background :=
  let w1 := nativeW * 1920 / nativeH
  let w2 := if 1080 < w1 then (1080 : ℚ) else w1
  { duration := T, width := w2, height := 1920, isSolid := false }

/-- The characters Python `str.strip()` and `str.split()` treat as
whitespace. -/
def pyIsSpace (c : Char) : Bool :=
  c == ' ' || c == '\t' || c == '\n' || c == '\r' || c == '\x0b' || c == '\x0c'

/-- Python `str.strip()`: drop leading and trailing whitespace. -/
def pyStrip (s : String) : String :=
  String.mk (((s.data.dropWhile pyIsSpace).reverse.dropWhile pyIsSpace).reverse)

/-- Left-to-right scan of Python `str.split('. ')`: each non-overlapping
occurrence of the two-character separator closes the current fragment
(`acc`, reversed); empty fragments are kept. -/
def splitDotSpaceAux : List Char → List Char → List (List Char)
  | [], acc => [acc.reverse]
  | [c], acc => [(c :: acc).reverse]
  | c1 :: c2 :: rest, acc =>
    if c1 = '.' ∧ c2 = ' ' then acc.reverse :: splitDotSpaceAux rest []
    else splitDotSpaceAux (c2 :: rest) (c1 :: acc)

/-- `story_text.split('. ')` (reel_video_generator.py line 229). -/
def pySplitDotSpace (s : String) : List String :=
  (splitDotSpaceAux s.data []).map String.mk

/-- Maximal non-blank runs, as Python `str.split()` with no argument. -/
def pyWordsAux : List Char → List Char → List (List Char)
  | [], acc => if acc.isEmpty then [] else [acc.reverse]
  | c :: rest, acc =>
    if pyIsSpace c then
      if acc.isEmpty then pyWordsAux rest [] else acc.reverse :: pyWordsAux rest []
    else pyWordsAux rest (c :: acc)

/-- One subtitle overlay: displayed text, start offset and duration in
seconds relative to composition start. -/
structure Caption where
  text : String
  start : ℚ
  duration : ℚ
deriving DecidableEq

/-- Default caption used with `List.getD` in statements. -/
def defCaption : Caption := { text := "", start := 0, duration := 0 }

/-- `time_per_line = (actual_duration - 3) / max(len(story_lines), 1)`
(reel_video_generator.py line 232). -/
def time_per_line (T : ℚ) (n : ℕ) : ℚ :=
  (T - 3) / ((max n 1 : ℕ) : ℚ)

/-- The subtitle loop (reel_video_generator.py lines 234-245): each
indexed line with non-blank `strip()` yields a caption displaying
`line.strip() + '.'`, starting at `3 + i * time_per_line` and lasting
`min(time_per_line, actual_duration - start_time)`. -/
def subtitle_clips (story_lines : List String) (T : ℚ) : List Caption :=
  story_lines.enum.filterMap (fun p =>
    if pyStrip p.2 = "" then none
    else
      some { text := pyStrip p.2 ++ ".",
             start := 3 + (p.1 : ℚ) * time_per_line T story_lines.length,
             duration := min (time_per_line T story_lines.length)
               (T - (3 + (p.1 : ℚ) * time_per_line T story_lines.length)) })

/-- The final timeline assembled by `generate_video`: background track,
attached narration audio, title card, subtitle overlays and hashtag
card. -/
structure Composition where
  duration : ℚ
  background : Background
  audioDuration : ℚ
  titleText : String
  titleStart : ℚ
  titleDuration : ℚ
  subtitles : List Caption
  hashtagText : String
  hashtagStart : ℚ
  hashtagDuration : ℚ
deriving DecidableEq

/-- Constructor arguments of `ReelVideoGenerator` used by
`generate_video`. -/
structure Config where
  output_dir : String
  language : String
  video_duration : ℚ
  pexels_api_key : Option String

/-- Outcomes of the external calls of one `generate_video` run, plus the
inspected properties of the downloaded background clip. -/
structure RunEnv where
  story_data : StoryData
  background_query : Option String
  ttsOutcome : HttpOutcome ℚ
  searchResponse : HttpOutcome (List PexelsVideo)
  downloadOutcome : HttpOutcome Unit
  bgNativeW : ℚ
  bgNativeH : ℚ
  bgNativeDur : ℚ
  writeOk : Bool
  timestamp : String

/-- `output_path = self.output_dir / f"reel_{timestamp}.mp4"`
(reel_video_generator.py lines 164-166). -/
def output_path_of (cfg : Config) (env : RunEnv) : String :=
  cfg.output_dir ++ "/reel_" ++ env.timestamp ++ ".mp4"

/-- Result of the body of `generate_video` once TTS has succeeded: the
narration text sent to speech synthesis, the assembled composition and
the output path. -/
structure RunTrace where
  ttsText : String
  composition : Composition
  outputPath : String
deriving DecidableEq

/-- The pure body of `generate_video` (reel_video_generator.py lines
168-285) given the synthesized audio duration `audioDur`:
`actual_duration = min(audio_clip.duration + 3, self.video_duration)`;
background search/download/transform with solid-colour fallback; title
card of 3 seconds; subtitle overlays; hashtag card of 2 seconds starting
at `actual_duration - 2`; `set_audio(audio_clip)` attaches the full
untrimmed audio. -/
def composeRun (cfg : Config) (env : RunEnv) (audioDur : ℚ) : RunTrace :=
  let story_text := storyTextOf env.story_data
  let actual_duration := min (audioDur + 3) cfg.video_duration
  let key := initPexelsKey cfg.pexels_api_key
  let background_clip : Option Background :=
    if truthyStr env.background_query && !(key == "") then
      match search_pexels_videos key env.searchResponse with
      | [] => none
      | _ :: _ =>
          match download_video env.downloadOutcome "background.mp4" with
          | some _ =>
              some (transformBackground env.bgNativeW env.bgNativeH env.bgNativeDur
                actual_duration)
          | none => none
    else none
  let background := background_clip.getD (create_solid_background actual_duration)
  let story_lines := pySplitDotSpace story_text
  { ttsText := story_text,
    composition :=
      { duration := actual_duration,
        background := background,
        audioDuration := audioDur,
        titleText := env.story_data.title.getD "Salford Stories",
        titleStart := 0,
        titleDuration := 3,
        subtitles := subtitle_clips story_lines actual_duration,
        hashtagText := String.intercalate " "
          (env.story_data.hashtags.getD ["#Salford", "#Stories"]),
        hashtagStart := actual_duration - 2,
        hashtagDuration := 2 },
    outputPath := output_path_of cfg env }

/-- The errors that can be raised inside the `try` block of
`generate_video` by calls the source does not guard locally. -/
inductive PipeError where
  | ttsError
  | renderError
deriving DecidableEq

/-- The `try` block of `generate_video`: TTS failure or
`write_videofile` failure raise; everything in between is the pure
`composeRun`. -/
def pipelineCore (cfg : Config) (env : RunEnv) : Except PipeError RunTrace :=
  match env.ttsOutcome with
  | HttpOutcome.error => Except.error PipeError.ttsError
  | HttpOutcome.ok d =>
      if env.writeOk then Except.ok (composeRun cfg env d)
      else Except.error PipeError.renderError

/-- `generate_video` (reel_video_generator.py lines 157-298): returns
the output path on success; the `except Exception` branch prints a
traceback and returns `None`. -/
def generate_video (cfg : Config) (env : RunEnv) : Option String :=
  match pipelineCore cfg env with
  | Except.ok tr => some tr.outputPath
  | Except.error _ => none

/-- The final branch of `main` in daily_reel_automation.py (lines
124-149): exit code 0 when a path was returned, 1 otherwise. -/
def main_return_code (cfg : Config) (env : RunEnv) : ℕ :=
  match generate_video cfg env with
  | some _ => 0
  | none => 1

/-- One entry of `STORY_TEMPLATES` in daily_reel_automation.py. -/
structure StoryTemplate where
  title : String
  story : String
  background_query : String
  hashtags : List String
deriving DecidableEq

/-- The fixed story catalog `STORY_TEMPLATES` of daily_reel_automation.py
(lines 36-100), eight entries. -/
def STORY_TEMPLATES : List StoryTemplate :=
  [ { title := "The Ghost of Peel Park",
      story := "Legend says that on foggy nights, a mysterious figure walks through Peel Park in Salford. Locals claim it is the spirit of a Victorian gentleman who once owned the land. Many have reported hearing footsteps and seeing shadows near the old gates. Whether you believe it or not, Peel Park holds many secrets.",
      background_query := "park fog night mysterious",
      hashtags := ["#Salford", "#UrbanLegend", "#PeelPark", "#GhostStory", "#Manchester"] },
    { title := "Salford Quays Transformation",
      story := "Once an industrial wasteland, Salford Quays has transformed into a vibrant cultural hub. From old docks to modern architecture, this area tells the story of regeneration. The BBC, Imperial War Museum, and The Lowry now call this place home. It is a testament to how cities can reinvent themselves.",
      background_query := "salford quays modern architecture water",
      hashtags := ["#SalfordQuays", "#UrbanTransformation", "#ModernCity", "#Architecture", "#Manchester"] },
    { title := "Hidden Gardens of Salford",
      story := "Tucked away from the busy streets, Salford has secret gardens waiting to be discovered. From community allotments to Victorian-era parks, these green spaces offer peace and tranquility. They are the lungs of the city, cherished by locals who know where to find them. Next time you visit, take a moment to explore.",
      background_query := "garden nature green peaceful",
      hashtags := ["#Salford", "#HiddenGems", "#UrbanGarden", "#Nature", "#CommunitySpaces"] },
    { title := "Salford\x27s Industrial Heritage",
      story := "Salford was once the heart of the Industrial Revolution. Cotton mills, factories, and warehouses powered Britain\x27s economy. The working-class spirit of this city shaped history. Today, old red brick buildings stand as monuments to that era. Walking through Salford is like stepping back in time.",
      background_query := "industrial brick building heritage",
      hashtags := ["#Salford", "#IndustrialHeritage", "#History", "#Manchester", "#WorkingClass"] },
    { title := "The Lowry: Art Meets Community",
      story := "Named after artist L.S. Lowry, The Lowry arts centre celebrates creativity and culture. It is more than just a venue. It is a gathering place for theatre, exhibitions, and performances. Thousands visit every year to experience world-class art. Salford\x27s cultural heartbeat can be felt here.",
      background_query := "art gallery modern theatre lights",
      hashtags := ["#TheLowry", "#Salford", "#Arts", "#Culture", "#Theatre"] },
    { title := "Ordsall Hall\x27s Dark Past",
      story := "Ordsall Hall is one of Salford\x27s oldest buildings, dating back to medieval times. Rumours of hauntings and ghostly sightings have persisted for centuries. Visitors report cold spots, unexplained noises, and shadowy figures. Some say the spirits of former residents still roam the halls. Would you dare visit at night?",
      background_query := "old mansion historic building dark",
      hashtags := ["#OrdsallHall", "#Salford", "#Haunted", "#History", "#GhostStories"] },
    { title := "Street Art Revolution",
      story := "Salford\x27s streets are canvases for talented artists. Vibrant murals tell stories of identity, struggle, and hope. From large-scale graffiti to hidden stencil art, creativity is everywhere. This urban art movement gives voice to the community. Salford is not just a city. It is a living gallery.",
      background_query := "street art mural graffiti colorful",
      hashtags := ["#StreetArt", "#Salford", "#UrbanArt", "#Graffiti", "#Community"] },
    { title := "The Chapel Street Revival",
      story := "Chapel Street was once Salford\x27s main shopping district, bustling with life. Over the years, it fell into decline. But now, a revival is underway. New businesses, cafes, and cultural spaces are breathing life back into the area. The spirit of Chapel Street is returning, stronger than ever.",
      background_query := "urban street revival shops lights",
      hashtags := ["#ChapelStreet", "#Salford", "#UrbanRevival", "#Community", "#LocalBusiness"] } ]

/-- `select_daily_story` (daily_reel_automation.py lines 103-107):
`STORY_TEMPLATES[day_of_year % len(STORY_TEMPLATES)]`.  The Python index
is always in range, so the `getD` default is never reached. -/
def select_daily_story (day_of_year : ℕ) : StoryTemplate :=
  STORY_TEMPLATES.getD (day_of_year % STORY_TEMPLATES.length)
    { title := "", story := "", background_query := "", hashtags := [] }

/-! Concrete configurations and run environments used to evaluate the
model on explicit inputs. -/

/-- The configuration built by `main` and by the test driver:
`ReelVideoGenerator(output_dir="videos/reels", language="en-GB",
video_duration=30, pexels_api_key=...)`. -/
def cfgDefault : Config :=
  { output_dir := "videos/reels", language := "en-GB", video_duration := 30,
    pexels_api_key := some "key" }

/-- The same configuration with the API key absent
(`os.getenv('PEXELS_API_KEY')` returning `None`). -/
def cfgNoKey : Config :=
  { output_dir := "videos/reels", language := "en-GB", video_duration := 30,
    pexels_api_key := none }

/-- A small story whose narration splits into three non-blank fragments. -/
def storySample : StoryData :=
  { title := some "The Ghost of Peel Park", story := some "One. Two. Three",
    content := none, hashtags := some ["#Salford", "#Stories"] }

/-- A run with no background query, an empty search result, successful
TTS and a successful render. -/
def envSample : RunEnv :=
  { story_data := storySample, background_query := none,
    ttsOutcome := HttpOutcome.ok 6, searchResponse := HttpOutcome.ok [],
    downloadOutcome := HttpOutcome.ok (), bgNativeW := 0, bgNativeH := 0,
    bgNativeDur := 0, writeOk := true, timestamp := "20260101_000000" }

/-- A run whose background search raises a network/API error. -/
def envSearchErr : RunEnv :=
  { story_data := storySample, background_query := some "salford city night fog",
    ttsOutcome := HttpOutcome.ok 6, searchResponse := HttpOutcome.error,
    downloadOutcome := HttpOutcome.ok (), bgNativeW := 1080, bgNativeH := 1920,
    bgNativeDur := 10, writeOk := true, timestamp := "20260101_000000" }

/-- A Pexels search result with one HD portrait file. -/
def pexelsVidSample : PexelsVideo :=
  { video_files := [{ quality := "hd", width := 1080, link := "http://example/v.mp4" }],
    duration := 10 }

/-- A run whose search succeeds but whose download raises a
network error. -/
def envDownloadErr : RunEnv :=
  { story_data := storySample, background_query := some "salford city night fog",
    ttsOutcome := HttpOutcome.ok 6, searchResponse := HttpOutcome.ok [pexelsVidSample],
    downloadOutcome := HttpOutcome.error, bgNativeW := 1080, bgNativeH := 1920,
    bgNativeDur := 10, writeOk := true, timestamp := "20260101_000000" }

/-- A run whose speech synthesis raises. -/
def envTtsFail : RunEnv :=
  { story_data := storySample, background_query := none,
    ttsOutcome := HttpOutcome.error, searchResponse := HttpOutcome.ok [],
    downloadOutcome := HttpOutcome.ok (), bgNativeW := 0, bgNativeH := 0,
    bgNativeDur := 0, writeOk := true, timestamp := "20260101_000000" }

/-- A narration of 81 whitespace-separated words. -/
def narr81 : String := "w w w w w w w w w w w w w w w w w w w w w w w w w w w w w w w w w w w w w w w w w w w w w w w w w w w w w w w w w w w w w w w w w w w w w w w w w w w w w w w w w"

/-- Spec-side measure, from the spec words only: the word count of a
narration string, counting maximal non-blank runs as Python
`len(text.split())` does.  The repository contains no clamping code, so
this definition exists purely to compare the spec sentence against the
text the code actually uses. -/
def wordCount (s : String) : ℕ :=
  (pyWordsAux s.data []).length

/-- A story whose narration exceeds 80 words. -/
def storyLong : StoryData :=
  { title := some "Long", story := some narr81, content := none, hashtags := none }

/-- A run over the 81-word narration. -/
def envLong : RunEnv :=
  { story_data := storyLong, background_query := none,
    ttsOutcome := HttpOutcome.ok 10, searchResponse := HttpOutcome.ok [],
    downloadOutcome := HttpOutcome.ok (), bgNativeW := 0, bgNativeH := 0,
    bgNativeDur := 0, writeOk := true, timestamp := "20260101_000000" }

/-! Helper lemmas about the subtitle loop. -/

/-- When every element satisfies the filter, the guarded `filterMap`
over an indexed list is a plain `map`. -/
lemma filterMap_enumFrom_all_some (f : ℕ × String → Caption) (lines : List String) (n : ℕ)
    (h : ∀ l ∈ lines, pyStrip l ≠ "") :
    (List.enumFrom n lines).filterMap
        (fun p => if pyStrip p.2 = "" then none else some (f p))
      = (List.enumFrom n lines).map f := by
  induction lines generalizing n with
  | nil => rfl
  | cons a l ih =>
    have ha : pyStrip a ≠ "" := h a (List.mem_cons_self _ _)
    simp only [List.enumFrom, List.filterMap_cons, List.map_cons, ha, if_neg ha]
    exact congrArg _ (ih _ (fun x hx => h x (List.mem_cons_of_mem _ hx)))

/-- With no blank line, the subtitle loop keeps every indexed line. -/
lemma subtitle_clips_eq_map (lines : List String) (T : ℚ)
    (h : ∀ l ∈ lines, pyStrip l ≠ "") :
    subtitle_clips lines T = lines.enum.map (fun p =>
      { text := pyStrip p.2 ++ ".",
        start := 3 + (p.1 : ℚ) * time_per_line T lines.length,
        duration := min (time_per_line T lines.length)
          (T - (3 + (p.1 : ℚ) * time_per_line T lines.length)) }) := by
  unfold subtitle_clips
  exact filterMap_enumFrom_all_some _ lines 0 h

/-- Index-wise description of the emitted captions when no line is
blank. -/
lemma subtitle_clips_getD (lines : List String) (T : ℚ) (i : ℕ)
    (h : ∀ l ∈ lines, pyStrip l ≠ "") (hi : i < lines.length) :
    (subtitle_clips lines T).getD i defCaption =
      { text := pyStrip (lines.getD i "") ++ ".",
        start := 3 + (i : ℚ) * time_per_line T lines.length,
        duration := min (time_per_line T lines.length)
          (T - (3 + (i : ℚ) * time_per_line T lines.length)) } := by
  rw [subtitle_clips_eq_map lines T h]
  have hlen : i < (lines.enum.map (fun p : ℕ × String =>
      ({ text := pyStrip p.2 ++ ".",
         start := 3 + (p.1 : ℚ) * time_per_line T lines.length,
         duration := min (time_per_line T lines.length)
           (T - (3 + (p.1 : ℚ) * time_per_line T lines.length)) } : Caption))).length := by
    simpa [List.enum_length] using hi
  rw [List.getD_eq_getElem _ _ hlen, List.getElem_map, List.getElem_enum]
  rw [List.getD_eq_getElem _ _ hi]

/-- With no blank line, the loop emits one caption per fragment. -/
lemma subtitle_clips_length (lines : List String) (T : ℚ)
    (h : ∀ l ∈ lines, pyStrip l ≠ "") :
    (subtitle_clips lines T).length = lines.length := by
  rw [subtitle_clips_eq_map lines T h]
  simp [List.enum_length]

/-! Claim theorems. -/

/-- C1: for every synthesized narration audio duration `d` and
configured cap `video_duration`, the composition target duration
computed by `generate_video` is `min (d + 3) video_duration`, the
3 seconds being the fixed title-card lead-in. -/
theorem generate_video_target_duration (cfg : Config) (env : RunEnv) (d : ℚ) :
    (composeRun cfg env d).composition.duration = min (d + 3) cfg.video_duration := rfl

/-- C2: when the narration splits into `k ≥ 1` fragments, none of them
blank, and the target duration `T` exceeds the 3-second lead-in, the
composer emits exactly `k` captions; caption `i` starts at
`3 + i * ((T - 3) / k)` and lasts `min ((T - 3) / k) (T - start)`; the
starts are strictly increasing, consecutive windows abut exactly (no
gap, no overlap), the first window starts at 3 and the last ends
exactly at `T`. -/
theorem generate_video_caption_layout
    (cfg : Config) (env : RunEnv) (d : ℚ) (k : ℕ) (T slice : ℚ)
    (hT : T = min (d + 3) cfg.video_duration)
    (hk : (pySplitDotSpace (storyTextOf env.story_data)).length = k)
    (hk0 : 0 < k)
    (hne : ∀ l ∈ pySplitDotSpace (storyTextOf env.story_data), pyStrip l ≠ "")
    (hT3 : 3 < T)
    (hslice : slice = (T - 3) / (k : ℚ)) :
    ((composeRun cfg env d).composition.subtitles.length = k) ∧
    (∀ i, i < k →
      ((composeRun cfg env d).composition.subtitles.getD i defCaption).start
          = 3 + (i : ℚ) * slice ∧
      ((composeRun cfg env d).composition.subtitles.getD i defCaption).duration
          = min slice (T - (3 + (i : ℚ) * slice))) ∧
    (∀ i j, i < j → j < k →
      ((composeRun cfg env d).composition.subtitles.getD i defCaption).start
        < ((composeRun cfg env d).composition.subtitles.getD j defCaption).start) ∧
    (∀ i, i + 1 < k →
      ((composeRun cfg env d).composition.subtitles.getD i defCaption).start
          + ((composeRun cfg env d).composition.subtitles.getD i defCaption).duration
        = ((composeRun cfg env d).composition.subtitles.getD (i + 1) defCaption).start) ∧
    (((composeRun cfg env d).composition.subtitles.getD 0 defCaption).start = 3) ∧
    (((composeRun cfg env d).composition.subtitles.getD (k - 1) defCaption).start
        + ((composeRun cfg env d).composition.subtitles.getD (k - 1) defCaption).duration
        = T) := by
  have hsub : (composeRun cfg env d).composition.subtitles
      = subtitle_clips (pySplitDotSpace (storyTextOf env.story_data)) T := by
    rw [hT]; rfl
  set lines := pySplitDotSpace (storyTextOf env.story_data) with hlines
  have htpl : time_per_line T lines.length = slice := by
    rw [time_per_line, hk, Nat.max_eq_left hk0, hslice]
  have hkQ : ((k : ℚ)) ≠ 0 := Nat.cast_ne_zero.mpr hk0.ne'
  have hkQ0 : (0 : ℚ) < (k : ℚ) := Nat.cast_pos.mpr hk0
  have hks : (k : ℚ) * slice = T - 3 := by
    rw [hslice]; field_simp
  have hslice_pos : 0 < slice := by
    rw [hslice]; exact div_pos (by linarith) hkQ0
  have hdur : ∀ i, i < k → min slice (T - (3 + (i : ℚ) * slice)) = slice := by
    intro i hi
    have h1 : (i : ℚ) + 1 ≤ (k : ℚ) := by exact_mod_cast hi
    have h2 : T - (3 + (i : ℚ) * slice) = ((k : ℚ) - (i : ℚ)) * slice := by
      have h3 : ((k : ℚ) - (i : ℚ)) * slice = (k : ℚ) * slice - (i : ℚ) * slice := by ring
      rw [h3, hks]; ring
    rw [h2]
    exact min_eq_left (le_mul_of_one_le_left hslice_pos.le (by linarith))
  have hchar : ∀ i, i < k → (subtitle_clips lines T).getD i defCaption =
      { text := pyStrip (lines.getD i "") ++ ".",
        start := 3 + (i : ℚ) * slice,
        duration := min slice (T - (3 + (i : ℚ) * slice)) } := by
    intro i hi
    rw [subtitle_clips_getD lines T i hne (by rw [hk]; exact hi), htpl]
  refine ⟨?_, ?_, ?_, ?_, ?_, ?_⟩
  · rw [hsub, subtitle_clips_length lines T hne, hk]
  · intro i hi
    rw [hsub, hchar i hi]
    exact ⟨rfl, rfl⟩
  · intro i j hij hj
    rw [hsub, hchar i (lt_trans hij hj), hchar j hj]
    have hq : (i : ℚ) < (j : ℚ) := Nat.cast_lt.mpr hij
    have hmul := mul_lt_mul_of_pos_right hq hslice_pos
    simpa using by linarith
  · intro i h1
    have hi : i < k := by omega
    rw [hsub, hchar i hi, hchar (i + 1) h1]
    show 3 + (i : ℚ) * slice + min slice (T - (3 + (i : ℚ) * slice))
        = 3 + ((i + 1 : ℕ) : ℚ) * slice
    rw [hdur i hi]
    push_cast
    ring
  · have h0 := hchar 0 hk0
    rw [hsub, h0]
    show 3 + (0 : ℚ) * slice = 3
    ring
  · have hi : k - 1 < k := by omega
    rw [hsub, hchar _ hi]
    show 3 + ((k - 1 : ℕ) : ℚ) * slice + min slice (T - (3 + ((k - 1 : ℕ) : ℚ) * slice)) = T
    rw [hdur _ hi]
    have h1k : (1 : ℕ) ≤ k := hk0
    have hcast : ((k - 1 : ℕ) : ℚ) = (k : ℚ) - 1 := by
      push_cast [Nat.cast_sub h1k]
      ring
    rw [hcast]
    have hsum : ((k : ℚ) - 1) * slice + slice = (k : ℚ) * slice := by ring
    linarith [hks]

/-- C2 witness: narration "One. Two. Three" with audio duration 6 and
cap 30 gives `T = 9`, three fragments, slice 2; the instantiated layout
facts hold. -/
theorem generate_video_caption_layout_witness :
    ((9 : ℚ) = min ((6 : ℚ) + 3) cfgDefault.video_duration) ∧
    ((pySplitDotSpace (storyTextOf envSample.story_data)).length = 3) ∧
    ((0 : ℕ) < 3) ∧
    (∀ l ∈ pySplitDotSpace (storyTextOf envSample.story_data), pyStrip l ≠ "") ∧
    ((3 : ℚ) < 9) ∧
    ((2 : ℚ) = ((9 : ℚ) - 3) / ((3 : ℕ) : ℚ)) ∧
    (((composeRun cfgDefault envSample 6).composition.subtitles.length = 3) ∧
     (∀ i, i < 3 →
       ((composeRun cfgDefault envSample 6).composition.subtitles.getD i defCaption).start
           = 3 + (i : ℚ) * 2 ∧
       ((composeRun cfgDefault envSample 6).composition.subtitles.getD i defCaption).duration
           = min 2 (9 - (3 + (i : ℚ) * 2))) ∧
     (∀ i j, i < j → j < 3 →
       ((composeRun cfgDefault envSample 6).composition.subtitles.getD i defCaption).start
         < ((composeRun cfgDefault envSample 6).composition.subtitles.getD j defCaption).start) ∧
     (∀ i, i + 1 < 3 →
       ((composeRun cfgDefault envSample 6).composition.subtitles.getD i defCaption).start
           + ((composeRun cfgDefault envSample 6).composition.subtitles.getD i defCaption).duration
         = ((composeRun cfgDefault envSample 6).composition.subtitles.getD (i + 1) defCaption).start) ∧
     (((composeRun cfgDefault envSample 6).composition.subtitles.getD 0 defCaption).start = 3) ∧
     (((composeRun cfgDefault envSample 6).composition.subtitles.getD (3 - 1) defCaption).start
         + ((composeRun cfgDefault envSample 6).composition.subtitles.getD (3 - 1) defCaption).duration
         = 9)) :=
  ⟨by norm_num [cfgDefault], by decide, by decide, by decide, by norm_num, by norm_num,
   generate_video_caption_layout cfgDefault envSample 6 3 9 2
     (by norm_num [cfgDefault]) (by decide) (by decide) (by decide)
     (by norm_num) (by norm_num)⟩

/-- C3: when the cap binds (`video_duration < d + 3`), the audio track
attached to the composition is the full untrimmed synthesized audio of
duration `d`, while the declared composition duration is clamped to the
cap; nothing in the pipeline shortens the audio track. -/
theorem narration_audio_untrimmed (cfg : Config) (env : RunEnv) (d : ℚ)
    (hcap : cfg.video_duration < d + 3) :
    (composeRun cfg env d).composition.audioDuration = d ∧
    (composeRun cfg env d).composition.duration = cfg.video_duration := by
  refine ⟨rfl, ?_⟩
  show min (d + 3) cfg.video_duration = cfg.video_duration
  exact min_eq_right hcap.le

/-- C3 witness: audio of 40 seconds against a 30-second cap keeps its
full 40 seconds and exceeds the declared 30-second duration. -/
theorem narration_audio_untrimmed_witness :
    (cfgDefault.video_duration < (40 : ℚ) + 3) ∧
    ((composeRun cfgDefault envSample 40).composition.audioDuration = 40 ∧
     (composeRun cfgDefault envSample 40).composition.duration = cfgDefault.video_duration) ∧
    ((30 : ℚ) < 40) :=
  ⟨by norm_num [cfgDefault],
   narration_audio_untrimmed cfgDefault envSample 40 (by norm_num [cfgDefault]),
   by norm_num⟩

/-- C4: for a background of native duration `0 < B < T`, the
`int(T / B) + 1` whole-clip repetitions cover at least `T` seconds, and
the transformed background trimmed with `subclip(0, T)` has duration
exactly `T`, not `T` plus a remainder. -/
theorem background_loop_covers (B T : ℚ) (hB : 0 < B) (hBT : B < T) :
    T ≤ (loops B T : ℚ) * B ∧
    loopedDuration B T = (loops B T : ℚ) * B ∧
    (∀ w h, (transformBackground w h B T).duration = T) := by
  have hTB : 0 ≤ T / B := div_nonneg (by linarith) hB.le
  have hfl : loops B T = ⌊T / B⌋ + 1 := by rw [loops, int_trunc, if_pos hTB]
  have h1 : T / B < ((⌊T / B⌋ : ℚ) + 1) := Int.lt_floor_add_one _
  refine ⟨?_, ?_, fun w h => rfl⟩
  · have h2 : T < ((⌊T / B⌋ : ℚ) + 1) * B := (div_lt_iff₀ hB).mp h1
    rw [hfl]
    push_cast
    linarith
  · rw [loopedDuration, if_pos hBT]

/-- C4 witness: a 4-second background against a 10-second target loops
3 times (12 seconds of coverage) and is trimmed to exactly 10 seconds. -/
theorem background_loop_covers_witness :
    ((0 : ℚ) < 4) ∧ ((4 : ℚ) < 10) ∧
    ((10 : ℚ) ≤ (loops 4 10 : ℚ) * 4 ∧
     loopedDuration 4 10 = (loops 4 10 : ℚ) * 4 ∧
     (∀ w h, (transformBackground w h 4 10).duration = 10)) :=
  ⟨by norm_num, by norm_num, background_loop_covers 4 10 (by norm_num) (by norm_num)⟩

/-- C5 counterexample: an 81-word narration is passed to speech
synthesis verbatim — 81 words, not 80, and with no ellipsis marker
appended — so the claimed truncation does not happen anywhere in the
pipeline. -/
theorem narration_truncation_cex :
    (composeRun cfgDefault envLong 10).ttsText = narr81 ∧
    wordCount narr81 = 81 ∧
    ¬ wordCount narr81 = 80 ∧
    "...".data.isSuffixOf narr81.data = false :=
  ⟨rfl, by decide, by decide, by decide⟩

/-- C5 amended: the narration used for speech synthesis (and, through
the fragment split, for captioning) is the story text exactly as found
in `story_data`, with no length clamping, truncation or ellipsis. -/
theorem narration_used_verbatim (cfg : Config) (env : RunEnv) (d : ℚ) :
    (composeRun cfg env d).ttsText = storyTextOf env.story_data := rfl

/-- C6: when the background search returns zero results, the run still
succeeds (given the remaining steps succeed) and the composition's
background is the solid-colour 1080x1920 placeholder held for the full
target duration. -/
theorem solid_background_fallback (cfg : Config) (env : RunEnv) (d : ℚ)
    (hsearch : env.searchResponse = HttpOutcome.ok [])
    (htts : env.ttsOutcome = HttpOutcome.ok d)
    (hwrite : env.writeOk = true) :
    generate_video cfg env = some (output_path_of cfg env) ∧
    (composeRun cfg env d).composition.background
      = create_solid_background (min (d + 3) cfg.video_duration) ∧
    (composeRun cfg env d).composition.background.isSolid = true ∧
    (composeRun cfg env d).composition.background.width = 1080 ∧
    (composeRun cfg env d).composition.background.height = 1920 ∧
    (composeRun cfg env d).composition.background.duration
      = (composeRun cfg env d).composition.duration := by
  have hempty : search_pexels_videos (initPexelsKey cfg.pexels_api_key)
      env.searchResponse = [] := by
    rw [hsearch, search_pexels_videos]
    split
    · rfl
    · rfl
  have hbg : (composeRun cfg env d).composition.background
      = create_solid_background (min (d + 3) cfg.video_duration) := by
    simp only [composeRun, hempty, ite_self, Option.getD_none]
  have hgen : generate_video cfg env = some (output_path_of cfg env) := by
    simp [generate_video, pipelineCore, htts, hwrite]
    rfl
  refine ⟨hgen, hbg, ?_, ?_, ?_, ?_⟩ <;> rw [hbg] <;> rfl

/-- C6 witness: the sample run has an empty search result and still
renders over the solid 1080x1920 placeholder. -/
theorem solid_background_fallback_witness :
    (envSample.searchResponse = HttpOutcome.ok []) ∧
    (envSample.ttsOutcome = HttpOutcome.ok 6) ∧
    (envSample.writeOk = true) ∧
    (generate_video cfgDefault envSample = some (output_path_of cfgDefault envSample) ∧
     (composeRun cfgDefault envSample 6).composition.background
       = create_solid_background (min ((6 : ℚ) + 3) cfgDefault.video_duration) ∧
     (composeRun cfgDefault envSample 6).composition.background.isSolid = true ∧
     (composeRun cfgDefault envSample 6).composition.background.width = 1080 ∧
     (composeRun cfgDefault envSample 6).composition.background.height = 1920 ∧
     (composeRun cfgDefault envSample 6).composition.background.duration
       = (composeRun cfgDefault envSample 6).composition.duration) :=
  ⟨rfl, rfl, rfl, solid_background_fallback cfgDefault envSample 6 rfl rfl rfl⟩

/-- C7 counterexample: a search (or download) network/API error is not
fatal.  The `except` branches return `[]` and `None`, the run completes
with the fallback background, `generate_video` returns a path, and the
process exit code is 0 — contradicting the claimed fatal propagation
and non-zero exit. -/
theorem provider_error_fatal_cex :
    search_pexels_videos (initPexelsKey (some "key")) HttpOutcome.error = [] ∧
    download_video HttpOutcome.error "background.mp4" = none ∧
    generate_video cfgDefault envSearchErr = some "videos/reels/reel_20260101_000000.mp4" ∧
    main_return_code cfgDefault envSearchErr = 0 ∧
    generate_video cfgDefault envDownloadErr = some "videos/reels/reel_20260101_000000.mp4" ∧
    main_return_code cfgDefault envDownloadErr = 0 :=
  ⟨rfl, rfl, rfl, rfl, rfl, rfl⟩

/-- C7 amended: a network/API error during background search or
download is caught locally (`search_pexels_videos` returns `[]`,
`download_video` returns `None`); the run falls back to the solid
background, completes, and exits zero when the remaining steps
succeed. -/
theorem provider_error_recovered (cfg : Config) (env : RunEnv) (d : ℚ)
    (hs : env.searchResponse = HttpOutcome.error)
    (ht : env.ttsOutcome = HttpOutcome.ok d)
    (hw : env.writeOk = true) :
    search_pexels_videos (initPexelsKey cfg.pexels_api_key) env.searchResponse = [] ∧
    (∀ p, download_video HttpOutcome.error p = none) ∧
    (composeRun cfg env d).composition.background.isSolid = true ∧
    generate_video cfg env = some (output_path_of cfg env) ∧
    main_return_code cfg env = 0 := by
  have hempty : search_pexels_videos (initPexelsKey cfg.pexels_api_key)
      env.searchResponse = [] := by
    rw [hs, search_pexels_videos]
    split
    · rfl
    · rfl
  have hbg : (composeRun cfg env d).composition.background
      = create_solid_background (min (d + 3) cfg.video_duration) := by
    simp only [composeRun, hempty, ite_self, Option.getD_none]
  have hgen : generate_video cfg env = some (output_path_of cfg env) := by
    simp [generate_video, pipelineCore, ht, hw]
    rfl
  refine ⟨hempty, fun p => rfl, ?_, hgen, ?_⟩
  · rw [hbg]; rfl
  · simp [main_return_code, hgen]

/-- C7 amended witness: the run whose search errors still succeeds with
exit code 0 over the solid background. -/
theorem provider_error_recovered_witness :
    (envSearchErr.searchResponse = HttpOutcome.error) ∧
    (envSearchErr.ttsOutcome = HttpOutcome.ok 6) ∧
    (envSearchErr.writeOk = true) ∧
    (search_pexels_videos (initPexelsKey cfgDefault.pexels_api_key)
        envSearchErr.searchResponse = [] ∧
     (∀ p, download_video HttpOutcome.error p = none) ∧
     (composeRun cfgDefault envSearchErr 6).composition.background.isSolid = true ∧
     generate_video cfgDefault envSearchErr = some (output_path_of cfgDefault envSearchErr) ∧
     main_return_code cfgDefault envSearchErr = 0) :=
  ⟨rfl, rfl, rfl, provider_error_recovered cfgDefault envSearchErr 6 rfl rfl rfl⟩

/-- C8 counterexample: with the API key absent, the constructor
substitutes the hard-coded non-empty default key and the pipeline runs
to successful completion with exit code 0 — there is no fatal
pre-flight credential check. -/
theorem missing_key_preflight_cex :
    initPexelsKey none = defaultPexelsKey ∧
    ¬ defaultPexelsKey = "" ∧
    generate_video cfgNoKey envSample = some "videos/reels/reel_20260101_000000.mp4" ∧
    main_return_code cfgNoKey envSample = 0 :=
  ⟨rfl, by decide, rfl, rfl⟩

/-- C8 amended: when the asset-search API key is absent the constructor
falls back to the built-in default key and the run proceeds normally;
no pre-flight failure occurs. -/
theorem missing_key_default_used (cfg : Config) (env : RunEnv) (d : ℚ)
    (hk : cfg.pexels_api_key = none)
    (ht : env.ttsOutcome = HttpOutcome.ok d)
    (hw : env.writeOk = true) :
    initPexelsKey cfg.pexels_api_key = defaultPexelsKey ∧
    generate_video cfg env = some (output_path_of cfg env) ∧
    main_return_code cfg env = 0 := by
  have hgen : generate_video cfg env = some (output_path_of cfg env) := by
    simp [generate_video, pipelineCore, ht, hw]
    rfl
  refine ⟨by rw [hk]; rfl, hgen, by simp [main_return_code, hgen]⟩

/-- C8 amended witness: the keyless configuration completes the sample
run with exit code 0. -/
theorem missing_key_default_used_witness :
    (cfgNoKey.pexels_api_key = none) ∧
    (envSample.ttsOutcome = HttpOutcome.ok 6) ∧
    (envSample.writeOk = true) ∧
    (initPexelsKey cfgNoKey.pexels_api_key = defaultPexelsKey ∧
     generate_video cfgNoKey envSample = some (output_path_of cfgNoKey envSample) ∧
     main_return_code cfgNoKey envSample = 0) :=
  ⟨rfl, rfl, rfl, missing_key_default_used cfgNoKey envSample 6 rfl rfl rfl⟩

/-- C9: the selected story is `catalog[day_ordinal mod N]` for the
catalog of size `N = 8`; the same day ordinal always yields the same
story, the selection repeats with period `N`, and no smaller positive
shift below `N` fixes the selection (the cycle is exactly `N` days). -/
theorem select_daily_story_cycle :
    (∀ day, select_daily_story day
        = STORY_TEMPLATES.getD (day % STORY_TEMPLATES.length)
            { title := "", story := "", background_query := "", hashtags := [] }) ∧
    (∀ day, select_daily_story (day + STORY_TEMPLATES.length) = select_daily_story day) ∧
    (∀ m, m < STORY_TEMPLATES.length → 0 < m →
        select_daily_story m ≠ select_daily_story 0) := by
  refine ⟨fun day => rfl, fun day => ?_, ?_⟩
  · rw [select_daily_story, select_daily_story, Nat.add_mod_right]
  · decide

/-- C9 witness: day 5 and day 5 + 8 select the same story, while a
shift of 3 changes the selection. -/
theorem select_daily_story_cycle_witness :
    select_daily_story (5 + STORY_TEMPLATES.length) = select_daily_story 5 ∧
    select_daily_story 3 ≠ select_daily_story 0 :=
  ⟨select_daily_story_cycle.2.1 5,
   select_daily_story_cycle.2.2 3 (by decide) (by decide)⟩

/-- C10: `generate_video` never lets a pipeline exception escape: every
modelled error is converted to a `None` return and every success to the
output-path string. -/
theorem generate_video_no_propagation (cfg : Config) (env : RunEnv) :
    (∀ e, pipelineCore cfg env = Except.error e → generate_video cfg env = none) ∧
    (∀ tr, pipelineCore cfg env = Except.ok tr → generate_video cfg env = some tr.outputPath) := by
  constructor
  · intro e he
    unfold generate_video
    rw [he]
  · intro tr htr
    unfold generate_video
    rw [htr]

/-- C10 witness: a TTS failure is converted to `None`; the sample run
returns its output path. -/
theorem generate_video_no_propagation_witness :
    generate_video cfgDefault envTtsFail = none ∧
    generate_video cfgDefault envSample = some (composeRun cfgDefault envSample 6).outputPath :=
  ⟨(generate_video_no_propagation cfgDefault envTtsFail).1 PipeError.ttsError rfl,
   (generate_video_no_propagation cfgDefault envSample).2 (composeRun cfgDefault envSample 6) rfl⟩

end ReelGen
